import Mathlib

/-!
Shallow embedding of avahi's DNS server browser (dns-server-browse.c).

The source composes a record-watch subscription (SRV NEW/REMOVE events) with
per-entry host-name resolutions (FOUND/FAILURE events) into a public
NEW/REMOVE event stream.  We embed the browser state (the entry list and its
count), the two callbacks `record_browser_callback` and
`host_name_resolver_callback`, and the constructor
`avahi_dns_server_browser_new`, and prove the spec's claims about them.

Modelling conventions:
* pointers to subsystem handles become `Bool` ("handle is non-NULL");
* the entry's `AvahiAddress address` field, which the C code leaves
  uninitialized until a FOUND event stores into it, becomes `Option Nat`
  with `none` standing for "never written";
* `avahi_new` and `avahi_host_name_resolver_new` can fail (return NULL), so
  the corresponding steps take explicit `allocOk` / `resolverOk` oracles;
* invoking the public callback becomes emitting a `PublicEvent` value.
-/

namespace Avahi

/-- DNS class IN (value from the repository's rr.h, standard DNS). -/
def AVAHI_DNS_CLASS_IN : Nat := 1

/-- DNS record type SRV (value from the repository's rr.h, standard DNS). -/
def AVAHI_DNS_TYPE_SRV : Nat := 33

/-- An `AvahiKey`: query/record key (name, class, type). -/
structure AvahiKey where
  name : String
  cls : Nat
  rtype : Nat
deriving DecidableEq, Repr

/-- The SRV rdata of a record (`record->data.srv` in the source). -/
structure AvahiSrvData where
  priority : Nat
  weight : Nat
  port : Nat
  name : String
deriving DecidableEq, Repr

/-- An SRV `AvahiRecord`: key, ttl and SRV rdata. -/
structure AvahiRecord where
  key : AvahiKey
  ttl : Nat
  srv : AvahiSrvData
deriving DecidableEq, Repr

/-- `avahi_record_equal_no_ttl`: record equality ignoring the ttl field
(compares the key and the rdata only). -/
def avahi_record_equal_no_ttl (a b : AvahiRecord) : Bool :=
  a.key == b.key && a.srv == b.srv

/-- `AvahiDNSServerInfo`: one candidate entry.  `host_name_resolver = true`
models a non-NULL resolver handle; `address = none` models the never-written
address field. -/
structure AvahiDNSServerInfo where
  interface : Int
  protocol : Int
  srv_record : AvahiRecord
  host_name_resolver : Bool
  address : Option Nat
deriving DecidableEq, Repr

/-- `AvahiBrowserEvent` (the two kinds this file handles). -/
inductive AvahiBrowserEvent where
  | NEW
  | REMOVE
deriving DecidableEq, Repr

/-- `AvahiResolverEvent` (found / timeout-failure). -/
inductive AvahiResolverEvent where
  | FOUND
  | FAILURE
deriving DecidableEq, Repr

/-- One invocation of the public `AvahiDNSServerBrowserCallback`: the
arguments the browser passes to the caller's callback. -/
structure PublicEvent where
  interface : Int
  protocol : Int
  event : AvahiBrowserEvent
  host_name : String
  address : Option Nat
  port : Nat
deriving DecidableEq, Repr

/-- `AvahiDNSServerBrowser`: the browser state the callbacks touch
(`info` list and `n_info` count), plus constructor-stored fields. -/
structure AvahiDNSServerBrowser where
  domain_name : String
  aprotocol : Int
  info : List AvahiDNSServerInfo
  n_info : Nat
deriving DecidableEq, Repr

/-- The loop predicate of `get_server_info`: does entry `i` match
(interface, protocol, record-ignoring-ttl)? -/
def info_matches (interface protocol : Int) (r : AvahiRecord)
    (i : AvahiDNSServerInfo) : Bool :=
  i.interface == interface && i.protocol == protocol &&
    avahi_record_equal_no_ttl r i.srv_record

/-- `get_server_info`: linear scan returning the first entry whose
(interface, protocol, record-ignoring-ttl) key matches, else NULL. -/
def get_server_info (b : AvahiDNSServerBrowser) (interface protocol : Int)
    (r : AvahiRecord) : Option AvahiDNSServerInfo :=
  b.info.find? (info_matches interface protocol r)

/-- `server_info_free`: drop the entry from the browser's list and decrement
`n_info`.  (The C code unlinks the node `i` itself; with structural equality
this is removing the first element equal to `i`.) -/
def server_info_free (b : AvahiDNSServerBrowser) (i : AvahiDNSServerInfo) :
    AvahiDNSServerBrowser :=
  { b with info := b.info.eraseP (fun j => j == i), n_info := b.n_info - 1 }

/-- `host_name_resolver_callback` acting on its entry `i`: on FOUND store the
address and emit the public NEW event (built from the entry's interface,
protocol, SRV target name, the fresh address, and the SRV port); in all
cases free the resolver handle and clear the reference.  Returns the updated
entry and the emitted public events. -/
def host_name_resolver_callback (i : AvahiDNSServerInfo)
    (event : AvahiResolverEvent) (a : Nat) :
    AvahiDNSServerInfo × List PublicEvent :=
  match event with
  | .FOUND =>
      ({ i with address := some a, host_name_resolver := false },
       [{ interface := i.interface, protocol := i.protocol,
          event := .NEW, host_name := i.srv_record.srv.name,
          address := some a, port := i.srv_record.srv.port }])
  | .FAILURE =>
      ({ i with host_name_resolver := false }, [])

/-- `record_browser_callback`: the SRV NEW/REMOVE state machine.
`allocOk` models `avahi_new` succeeding, `resolverOk` models
`avahi_host_name_resolver_new` succeeding.  Returns the updated browser and
the emitted public events. -/
def record_browser_callback (b : AvahiDNSServerBrowser)
    (interface protocol : Int) (event : AvahiBrowserEvent) (record : AvahiRecord)
    (allocOk resolverOk : Bool) :
    AvahiDNSServerBrowser × List PublicEvent :=
  match event with
  | .NEW =>
      if (get_server_info b interface protocol record).isSome then (b, [])
      else if b.n_info ≥ 10 then (b, [])
      else if !allocOk then (b, [])
      else
        let i : AvahiDNSServerInfo :=
          { interface := interface, protocol := protocol,
            srv_record := record, host_name_resolver := resolverOk,
            address := none }
        ({ b with info := i :: b.info, n_info := b.n_info + 1 }, [])
  | .REMOVE =>
      match get_server_info b interface protocol record with
      | none => (b, [])
      | some i =>
          (server_info_free b i,
           if !i.host_name_resolver then
             [{ interface := interface, protocol := protocol,
                event := .REMOVE, host_name := i.srv_record.srv.name,
                address := i.address, port := i.srv_record.srv.port }]
           else [])

/-- An input event delivered to the browser by its two subscriptions.  A
`resolve` input is addressed to the entry with the given key (in the C code
the resolver holds a pointer to its entry; entry keys are unique, so the key
identifies it); the event-loop only delivers it while that entry's resolver
handle is live. -/
inductive BrowserInput where
  | record (interface protocol : Int) (event : AvahiBrowserEvent)
      (r : AvahiRecord) (allocOk resolverOk : Bool)
  | resolve (interface protocol : Int) (r : AvahiRecord)
      (event : AvahiResolverEvent) (a : Nat)
deriving DecidableEq, Repr

/-- Replace the first element equal to `i` by `i'` (in-place update of the
entry the resolver callback mutated). -/
def replaceFirst (l : List AvahiDNSServerInfo) (i i' : AvahiDNSServerInfo) :
    List AvahiDNSServerInfo :=
  match l with
  | [] => []
  | x :: xs => if x == i then i' :: xs else x :: replaceFirst xs i i'

/-- One dispatch step of the browser: a record-watch event goes to
`record_browser_callback`; a resolution event goes to
`host_name_resolver_callback` on the addressed entry, provided that entry
exists and its resolver handle is still live (a freed resolver never fires). -/
def browser_step (b : AvahiDNSServerBrowser) (inp : BrowserInput) :
    AvahiDNSServerBrowser × List PublicEvent :=
  match inp with
  | .record interface protocol ev r aOk rOk =>
      record_browser_callback b interface protocol ev r aOk rOk
  | .resolve interface protocol r ev a =>
      match get_server_info b interface protocol r with
      | none => (b, [])
      | some i =>
          if i.host_name_resolver then
            let res := host_name_resolver_callback i ev a
            ({ b with info := replaceFirst b.info i res.1 }, res.2)
          else (b, [])

/-- Run the browser over a whole input sequence, concatenating the emitted
public events. -/
def browser_run (b : AvahiDNSServerBrowser) :
    List BrowserInput → AvahiDNSServerBrowser × List PublicEvent
  | [] => (b, [])
  | inp :: rest =>
      let res := browser_step b inp
      let res' := browser_run res.1 rest
      (res'.1, res.2 ++ res'.2)

/-- The browser state right after a successful construction: empty entry
list, zero count. -/
def fresh_browser (dn : String) (ap : Int) : AvahiDNSServerBrowser :=
  { domain_name := dn, aprotocol := ap, info := [], n_info := 0 }

/-- Error codes the constructor can set via `avahi_server_set_errno`
(symbolic; the numeric values live in a header outside this file). -/
inductive AvahiErr where
  | INVALID_DOMAIN_NAME
  | NO_MEMORY
deriving DecidableEq, Repr

/-- The externally visible actions `avahi_dns_server_browser_new` performs,
in program order: setting the server errno, allocating the browser,
registering it in the server's browser list, starting the record browser on
a query key, and (on the failure path) unregistering and freeing it again. -/
inductive CAction where
  | set_errno (e : AvahiErr)
  | alloc_browser
  | register_browser
  | start_record_browser (k : AvahiKey)
  | unregister_browser
  | free_browser
deriving DecidableEq, Repr

/-- Result of a construction call: the returned browser (NULL on failure)
plus the trace of externally visible actions it performed. -/
structure NewResult where
  browser : Option AvahiDNSServerBrowser
  actions : List CAction
deriving DecidableEq, Repr

/-- The service-kind argument of the constructor. -/
inductive AvahiDNSServerType where
  | RESOLVE
  | UPDATE
deriving DecidableEq, Repr

/-- The label prefixed to the domain, selected by service kind
(source line 184). -/
def dns_server_label : AvahiDNSServerType → String
  | .RESOLVE => "_domain._udp"
  | .UPDATE => "_dns-update._udp"

/-- Steps of `avahi_dns_server_browser_new` after domain validation, for the
already-normalized domain `dn`: allocate, store fields, register, build the
query name `label.domain` and key (IN class, SRV type), start the record
browser, and on its failure tear the browser down again. -/
def dns_server_browser_new_body (dn : String) (aprotocol : Int)
    (ty : AvahiDNSServerType) (allocOk recordBrowserOk : Bool) : NewResult :=
  if !allocOk then
    { browser := none, actions := [.set_errno .NO_MEMORY] }
  else
    let n := dns_server_label ty ++ "." ++ dn
    let k : AvahiKey := { name := n, cls := AVAHI_DNS_CLASS_IN,
                          rtype := AVAHI_DNS_TYPE_SRV }
    if recordBrowserOk then
      { browser := some (fresh_browser dn aprotocol),
        actions := [.alloc_browser, .register_browser,
                    .start_record_browser k] }
    else
      { browser := none,
        actions := [.alloc_browser, .register_browser,
                    .start_record_browser k,
                    .unregister_browser, .free_browser] }

/-- `avahi_dns_server_browser_new`.  `valid` and `normalize` stand for
`avahi_is_valid_domain_name` and `avahi_normalize_name`, which live in
avahi-common/domain.c outside the given sources; the claims proved below
hold for every choice of them.  A NULL `domain` is `none`; `allocOk` models
`avahi_new` succeeding and `recordBrowserOk` models
`avahi_record_browser_new` succeeding. -/
def avahi_dns_server_browser_new (valid : String → Bool)
    (normalize : String → String) (domain : Option String)
    (ty : AvahiDNSServerType) (aprotocol : Int)
    (allocOk recordBrowserOk : Bool) : NewResult :=
  match domain with
  | some d =>
      if !valid d then
        { browser := none, actions := [.set_errno .INVALID_DOMAIN_NAME] }
      else
        dns_server_browser_new_body (normalize d) aprotocol ty allocOk
          recordBrowserOk
  | none =>
      dns_server_browser_new_body (normalize "local") aprotocol ty allocOk
        recordBrowserOk

/-!
Heap-level model of the reentrancy hazard in `host_name_resolver_callback`
(source lines 102-110).  Entries are heap objects identified by `Nat` ids;
`avahi_dns_server_browser_free` frees the browser and cascades over every
entry, so after it runs no entry id is live.  In the FOUND branch the code
first invokes the public NEW callback - whose owner may call
`avahi_dns_server_browser_free` from inside it - and only afterwards
executes `avahi_host_name_resolver_free(i->host_name_resolver)` and
`i->host_name_resolver = NULL`, both of which dereference the entry `i`.
-/

/-- Liveness state of the browser's heap objects. -/
structure ResolverHeap where
  browser_live : Bool
  live_entries : List Nat
deriving DecidableEq, Repr

/-- `avahi_dns_server_browser_free` at the liveness level: the browser and
every one of its entries become dead (lines 199-211: the free loop runs
`server_info_free` until the list is empty, then frees the browser). -/
def browser_free_heap (_h : ResolverHeap) : ResolverHeap :=
  { browser_live := false, live_entries := [] }

/-- The FOUND branch of `host_name_resolver_callback` at the liveness level:
first the public NEW callback runs (if the caller destroys the browser from
inside it, the whole heap dies), then the code dereferences entry `e` to
free and clear its resolver handle.  Returns whether that post-callback
dereference hits a live entry. -/
def found_post_callback_access_live (h : ResolverHeap) (e : Nat)
    (callback_frees_browser : Bool) : Bool :=
  let h1 := if callback_frees_browser then browser_free_heap h else h
  h1.live_entries.contains e

/-- Does this input admit a fresh entry for the given key?  Only a record
NEW event whose (interface, protocol, record-ignoring-ttl) key matches can
ever create a matching entry. -/
def input_admits (inp : BrowserInput) (interface protocol : Int)
    (r : AvahiRecord) : Bool :=
  match inp with
  | .record interface2 protocol2 .NEW r2 _ _ =>
      interface2 == interface && protocol2 == protocol &&
        avahi_record_equal_no_ttl r r2
  | _ => false

/-- Test vector: the SRV record of the spec's scenarios (target
`host1.local`, port 5353). -/
def scenario_record : AvahiRecord :=
  { key := { name := "_domain._udp.local", cls := AVAHI_DNS_CLASS_IN,
             rtype := AVAHI_DNS_TYPE_SRV },
    ttl := 120,
    srv := { priority := 0, weight := 0, port := 5353,
             name := "host1.local" } }

/-- Test vector: the spec's Scenario C — SRV NEW, the host resolution fails
(not-found), then SRV REMOVE for the same record. -/
def scenarioC_inputs : List BrowserInput :=
  [ .record 1 0 .NEW scenario_record true true,
    .resolve 1 0 scenario_record .FAILURE 0,
    .record 1 0 .REMOVE scenario_record true true ]

/-!  Invariants and helper lemmas.  -/

/-- Two entries carry the same (interface, protocol, record-ignoring-ttl)
key. -/
def info_same_key (i j : AvahiDNSServerInfo) : Bool :=
  i.interface == j.interface && i.protocol == j.protocol &&
    avahi_record_equal_no_ttl i.srv_record j.srv_record

/-- Dedup invariant: no two entries of the browser share a key. -/
def dedup_inv (b : AvahiDNSServerBrowser) : Prop :=
  b.info.Pairwise (fun i j => info_same_key i j = false)

/-- Count invariant: `n_info` equals the length of the entry list and stays
within the hard bound of 10. -/
def count_inv (b : AvahiDNSServerBrowser) : Prop :=
  b.n_info = b.info.length ∧ b.n_info ≤ 10

theorem equal_no_ttl_iff (a b : AvahiRecord) :
    avahi_record_equal_no_ttl a b = true ↔ a.key = b.key ∧ a.srv = b.srv := by
  simp [avahi_record_equal_no_ttl]

theorem info_matches_iff (interface protocol : Int) (r : AvahiRecord)
    (i : AvahiDNSServerInfo) :
    info_matches interface protocol r i = true ↔
      i.interface = interface ∧ i.protocol = protocol ∧
        r.key = i.srv_record.key ∧ r.srv = i.srv_record.srv := by
  simp [info_matches, equal_no_ttl_iff, and_assoc]

theorem info_same_key_iff (i j : AvahiDNSServerInfo) :
    info_same_key i j = true ↔
      i.interface = j.interface ∧ i.protocol = j.protocol ∧
        i.srv_record.key = j.srv_record.key ∧
        i.srv_record.srv = j.srv_record.srv := by
  simp [info_same_key, equal_no_ttl_iff, and_assoc]

/-- Two entries matched by the same lookup key share their key. -/
theorem info_same_key_of_matches {interface protocol : Int} {r : AvahiRecord}
    {i j : AvahiDNSServerInfo}
    (hi : info_matches interface protocol r i = true)
    (hj : info_matches interface protocol r j = true) :
    info_same_key i j = true := by
  rw [info_matches_iff] at hi hj
  rw [info_same_key_iff]
  obtain ⟨h1, h2, h3, h4⟩ := hi
  obtain ⟨g1, g2, g3, g4⟩ := hj
  exact ⟨h1.trans g1.symm, h2.trans g2.symm, h3.symm.trans g3,
    h4.symm.trans g4⟩

/-- A lookup key that matches `i` also matches anything sharing `i`'s key. -/
theorem matches_of_same_key {interface protocol : Int} {r : AvahiRecord}
    {i j : AvahiDNSServerInfo}
    (hi : info_matches interface protocol r i = true)
    (hk : info_same_key i j = true) :
    info_matches interface protocol r j = true := by
  rw [info_matches_iff] at hi ⊢
  rw [info_same_key_iff] at hk
  obtain ⟨h1, h2, h3, h4⟩ := hi
  obtain ⟨k1, k2, k3, k4⟩ := hk
  exact ⟨k1 ▸ h1, k2 ▸ h2, h3.trans k3, h4.trans k4⟩

/-- Under the dedup invariant a lookup key matches at most one entry of the
list. -/
theorem dedup_unique {l : List AvahiDNSServerInfo}
    (hp : l.Pairwise (fun i j => info_same_key i j = false))
    {interface protocol : Int} {r : AvahiRecord} {i j : AvahiDNSServerInfo}
    (hi : i ∈ l) (hj : j ∈ l)
    (hmi : info_matches interface protocol r i = true)
    (hmj : info_matches interface protocol r j = true) : i = j := by
  induction l with
  | nil => cases hi
  | cons x xs ih =>
      rw [List.pairwise_cons] at hp
      rcases List.mem_cons.mp hi with hix | hix
      · rcases List.mem_cons.mp hj with hjx | hjx
        · exact hix.trans hjx.symm
        · exact absurd (info_same_key_of_matches hmi hmj)
            (by simp [hix ▸ hp.1 j hjx])
      · rcases List.mem_cons.mp hj with hjx | hjx
        · exact absurd (info_same_key_of_matches hmj hmi)
            (by simp [hjx ▸ hp.1 i hix])
        · exact ih hp.2 hix hjx

/-- Membership after `replaceFirst`: everything is either an original
element or the replacement (and then the replaced element was present). -/
theorem mem_replaceFirst {l : List AvahiDNSServerInfo}
    {i i' x : AvahiDNSServerInfo} (hx : x ∈ replaceFirst l i i') :
    x ∈ l ∨ (x = i' ∧ i ∈ l) := by
  induction l with
  | nil => cases hx
  | cons y ys ih =>
      by_cases hy : y == i
      · rw [replaceFirst, if_pos hy] at hx
        rcases List.mem_cons.mp hx with h | h
        · exact Or.inr ⟨h, by simp_all⟩
        · exact Or.inl (List.mem_cons_of_mem y h)
      · rw [replaceFirst, if_neg hy] at hx
        rcases List.mem_cons.mp hx with h | h
        · exact Or.inl (h ▸ List.mem_cons_self y ys)
        · rcases ih h with h' | h'
          · exact Or.inl (List.mem_cons_of_mem y h')
          · exact Or.inr ⟨h'.1, List.mem_cons_of_mem y h'.2⟩

theorem length_replaceFirst (l : List AvahiDNSServerInfo)
    (i i' : AvahiDNSServerInfo) :
    (replaceFirst l i i').length = l.length := by
  induction l with
  | nil => rfl
  | cons y ys ih =>
      by_cases hy : y == i
      · rw [replaceFirst, if_pos hy]; simp
      · rw [replaceFirst, if_neg hy]; simp [ih]

/-- `replaceFirst` keeps the pairwise no-shared-key property when the
replacement carries the same key as the replaced entry. -/
theorem pairwise_replaceFirst {l : List AvahiDNSServerInfo}
    {i i' : AvahiDNSServerInfo}
    (h1 : ∀ j, info_same_key i' j = info_same_key i j)
    (h2 : ∀ j, info_same_key j i' = info_same_key j i)
    (hp : l.Pairwise (fun a b => info_same_key a b = false)) :
    (replaceFirst l i i').Pairwise (fun a b => info_same_key a b = false) := by
  induction l with
  | nil => exact hp
  | cons y ys ih =>
      rw [List.pairwise_cons] at hp
      by_cases hy : y == i
      · rw [replaceFirst, if_pos hy, List.pairwise_cons]
        refine ⟨fun j hj => ?_, hp.2⟩
        rw [h1 j]
        have : y = i := by simp_all
        exact this ▸ hp.1 j hj
      · rw [replaceFirst, if_neg hy, List.pairwise_cons]
        refine ⟨fun j hj => ?_, ih hp.2⟩
        rcases mem_replaceFirst hj with h | h
        · exact hp.1 j h
        · rw [h.1, h2 y]
          exact hp.1 i h.2

/-- The resolver callback changes only the `address` and
`host_name_resolver` fields of its entry; the key fields survive, and the
resolver reference is cleared in every case. -/
theorem hnrc_fields (i : AvahiDNSServerInfo) (ev : AvahiResolverEvent)
    (a : Nat) :
    (host_name_resolver_callback i ev a).1.interface = i.interface ∧
    (host_name_resolver_callback i ev a).1.protocol = i.protocol ∧
    (host_name_resolver_callback i ev a).1.srv_record = i.srv_record ∧
    (host_name_resolver_callback i ev a).1.host_name_resolver = false := by
  cases ev <;> simp [host_name_resolver_callback]

/-- A freshly inserted entry shares a key with `j` exactly when `j` matches
the creation key. -/
theorem fresh_same_key_iff (interface protocol : Int) (r : AvahiRecord)
    (rOk : Bool) (j : AvahiDNSServerInfo) :
    info_same_key { interface := interface, protocol := protocol,
                    srv_record := r, host_name_resolver := rOk,
                    address := none } j = true ↔
      info_matches interface protocol r j = true := by
  rw [info_same_key_iff, info_matches_iff]
  exact ⟨fun ⟨a, b, c, d⟩ => ⟨a.symm, b.symm, c, d⟩,
    fun ⟨a, b, c, d⟩ => ⟨a.symm, b.symm, c, d⟩⟩

/-- `info_matches` only looks at the key fields. -/
theorem info_matches_congr {i i' : AvahiDNSServerInfo}
    (hif : i'.interface = i.interface) (hpr : i'.protocol = i.protocol)
    (hr : i'.srv_record = i.srv_record) (interface protocol : Int)
    (r : AvahiRecord) :
    info_matches interface protocol r i' =
      info_matches interface protocol r i := by
  simp [info_matches, hif, hpr, hr]

/-- `info_same_key` only looks at the key fields (both sides). -/
theorem info_same_key_congr {i i' : AvahiDNSServerInfo}
    (hif : i'.interface = i.interface) (hpr : i'.protocol = i.protocol)
    (hr : i'.srv_record = i.srv_record) :
    (∀ j, info_same_key i' j = info_same_key i j) ∧
    (∀ j, info_same_key j i' = info_same_key j i) := by
  exact ⟨fun j => by simp [info_same_key, hif, hpr, hr],
    fun j => by simp [info_same_key, hif, hpr, hr]⟩

/-!  Claim theorems.  -/

/-- C1, counterexample: running the spec's Scenario C (an SRV NEW whose
host resolution fails with not-found, followed by the SRV REMOVE for the
same record) from a fresh browser emits exactly one public event — a REMOVE
carrying the never-written address — although no public NEW was ever
emitted for that key.  This refutes the pairing invariant and Scenario C's
"zero public events". -/
theorem C1_pairing_counterexample :
    (browser_run (fresh_browser "local" 0) scenarioC_inputs).2 =
      [{ interface := 1, protocol := 0, event := .REMOVE,
         host_name := "host1.local", address := none, port := 5353 }] := by
  rfl

/-- C1, amended: a public REMOVE event is emitted at an SRV REMOVE exactly
when a matching entry exists whose host-name-resolver handle is null at
that moment — a condition that holds after a successful resolution, but
also after a failed one, so an entry whose resolution failed (and which
never produced a public NEW) does produce a public REMOVE when its SRV
REMOVE arrives. -/
theorem C1_remove_iff_resolver_null (b : AvahiDNSServerBrowser)
    (interface protocol : Int) (r : AvahiRecord) (aOk rOk : Bool) :
    (record_browser_callback b interface protocol .REMOVE r aOk rOk).2 ≠ []
      ↔ ∃ i, get_server_info b interface protocol r = some i ∧
          i.host_name_resolver = false := by
  cases h : get_server_info b interface protocol r with
  | none => simp [record_browser_callback, h]
  | some i =>
      cases hb : i.host_name_resolver <;>
        simp [record_browser_callback, h, hb]

/-- C2: on an SRV REMOVE with a matching entry, the public REMOVE callback
fires exactly when the entry's resolver handle is null at that moment, it
is passed the entry's stored address field (even if no resolution ever
wrote it), and the entry is destroyed in every case.  The nullness
condition indeed also holds after a failed (not-found) resolution, since
the resolver callback clears the handle on FOUND and FAILURE alike. -/
theorem C2_remove_callback_condition (b : AvahiDNSServerBrowser)
    (interface protocol : Int) (r : AvahiRecord) (aOk rOk : Bool)
    (i : AvahiDNSServerInfo)
    (h : get_server_info b interface protocol r = some i) :
    (record_browser_callback b interface protocol .REMOVE r aOk rOk).2 =
      (if i.host_name_resolver = false then
        [{ interface := interface, protocol := protocol, event := .REMOVE,
           host_name := i.srv_record.srv.name, address := i.address,
           port := i.srv_record.srv.port }]
       else []) ∧
    (record_browser_callback b interface protocol .REMOVE r aOk rOk).1 =
      server_info_free b i ∧
    (∀ j a, (host_name_resolver_callback j .FOUND a).1.host_name_resolver
        = false) ∧
    (∀ j a, (host_name_resolver_callback j .FAILURE a).1.host_name_resolver
        = false) := by
  refine ⟨?_, ?_, fun j a => rfl, fun j a => rfl⟩ <;>
    cases hb : i.host_name_resolver <;>
      simp [record_browser_callback, h, hb]

theorem C2_remove_callback_condition_witness :
    get_server_info
        { domain_name := "local", aprotocol := 0,
          info := [{ interface := 1, protocol := 0,
                     srv_record := scenario_record,
                     host_name_resolver := false, address := none }],
          n_info := 1 } 1 0 scenario_record =
      some { interface := 1, protocol := 0, srv_record := scenario_record,
             host_name_resolver := false, address := none } ∧
    (record_browser_callback
        { domain_name := "local", aprotocol := 0,
          info := [{ interface := 1, protocol := 0,
                     srv_record := scenario_record,
                     host_name_resolver := false, address := none }],
          n_info := 1 } 1 0 .REMOVE scenario_record true true).2 =
      (if ({ interface := 1, protocol := 0, srv_record := scenario_record,
             host_name_resolver := false, address := none }
            : AvahiDNSServerInfo).host_name_resolver = false then
        [{ interface := 1, protocol := 0, event := .REMOVE,
           host_name := scenario_record.srv.name, address := none,
           port := scenario_record.srv.port }]
       else []) := by
  refine ⟨rfl, ?_⟩
  exact (C2_remove_callback_condition
    { domain_name := "local", aprotocol := 0,
      info := [{ interface := 1, protocol := 0,
                 srv_record := scenario_record,
                 host_name_resolver := false, address := none }],
      n_info := 1 } 1 0 scenario_record true true
    { interface := 1, protocol := 0, srv_record := scenario_record,
      host_name_resolver := false, address := none } (by rfl)).1

/-- C3: the claim that the post-callback cleanup in the resolution-found
path is safe even when the public NEW callback destroyed the browser is
refuted at the liveness level: if the callback frees the browser, the
subsequent dereference of the entry (to free and clear its resolver handle,
source lines 108-109) hits an entry that is no longer live. -/
theorem C3_post_callback_use_after_free :
    found_post_callback_access_live
      { browser_live := true, live_entries := [0] } 0 true = false := by
  rfl

/-- C6: a public NEW event is emitted only by the resolution handler on a
FOUND event, carrying the entry's (interface, protocol), the SRV target
name, the just-resolved address and the SRV port; a record-watch NEW emits
nothing, a record-watch REMOVE emits only REMOVE-kind events, and a failed
resolution emits nothing. -/
theorem C6_public_new_only_on_found (b : AvahiDNSServerBrowser) :
    (∀ interface protocol r aOk rOk,
        (record_browser_callback b interface protocol .NEW r aOk rOk).2
          = []) ∧
    (∀ interface protocol r aOk rOk e,
        e ∈ (record_browser_callback b interface protocol .REMOVE r
              aOk rOk).2 →
        e.event = .REMOVE) ∧
    (∀ interface protocol r a i,
        get_server_info b interface protocol r = some i →
        i.host_name_resolver = true →
        (browser_step b (.resolve interface protocol r .FOUND a)).2 =
          [{ interface := i.interface, protocol := i.protocol,
             event := .NEW, host_name := i.srv_record.srv.name,
             address := some a, port := i.srv_record.srv.port }]) ∧
    (∀ interface protocol r a,
        (browser_step b (.resolve interface protocol r .FAILURE a)).2
          = []) := by
  refine ⟨?_, ?_, ?_, ?_⟩
  · intro interface protocol r aOk rOk
    by_cases h1 : (get_server_info b interface protocol r).isSome
    · simp [record_browser_callback, h1]
    · by_cases h2 : b.n_info ≥ 10
      · simp [record_browser_callback, h1, h2]
      · cases aOk <;> simp [record_browser_callback, h1, h2]
  · intro interface protocol r aOk rOk e he
    cases h : get_server_info b interface protocol r with
    | none => simp [record_browser_callback, h] at he
    | some i =>
        cases hb : i.host_name_resolver <;>
          simp [record_browser_callback, h, hb] at he
        rw [he]
  · intro interface protocol r a i h hb
    simp [browser_step, h, hb, host_name_resolver_callback]
  · intro interface protocol r a
    cases h : get_server_info b interface protocol r with
    | none => simp [browser_step, h]
    | some i =>
        cases hb : i.host_name_resolver <;>
          simp [browser_step, h, hb, host_name_resolver_callback]

theorem C6_public_new_only_on_found_witness :
    (browser_step
        { domain_name := "local", aprotocol := 0,
          info := [{ interface := 1, protocol := 0,
                     srv_record := scenario_record,
                     host_name_resolver := true, address := none }],
          n_info := 1 }
        (.resolve 1 0 scenario_record .FOUND 7)).2 =
      [{ interface := 1, protocol := 0, event := .NEW,
         host_name := "host1.local", address := some 7, port := 5353 }] := by
  exact (C6_public_new_only_on_found
    { domain_name := "local", aprotocol := 0,
      info := [{ interface := 1, protocol := 0,
                 srv_record := scenario_record,
                 host_name_resolver := true, address := none }],
      n_info := 1 }).2.2.1 1 0 scenario_record 7
    { interface := 1, protocol := 0, srv_record := scenario_record,
      host_name_resolver := true, address := none } rfl rfl

/-- C8: during SRV NEW handling of a fresh key below the bound, an entry
allocation failure drops the event with the browser state completely
unchanged and no public event, while a failure to start the host resolution
still inserts the entry with a null resolver reference and increments the
count, again with no public event. -/
theorem C8_steady_state_alloc_failure (b : AvahiDNSServerBrowser)
    (interface protocol : Int) (r : AvahiRecord)
    (h1 : get_server_info b interface protocol r = none)
    (h2 : b.n_info < 10) :
    (∀ rOk, record_browser_callback b interface protocol .NEW r false rOk
        = (b, [])) ∧
    record_browser_callback b interface protocol .NEW r true false =
      ({ b with
          info := { interface := interface, protocol := protocol,
                    srv_record := r, host_name_resolver := false,
                    address := none } :: b.info,
          n_info := b.n_info + 1 }, []) := by
  have h3 : ¬ b.n_info ≥ 10 := by omega
  exact ⟨fun rOk => by simp [record_browser_callback, h1, h3],
    by simp [record_browser_callback, h1, h3]⟩

theorem C8_steady_state_alloc_failure_witness :
    get_server_info (fresh_browser "local" 0) 1 0 scenario_record = none ∧
    (fresh_browser "local" 0).n_info < 10 ∧
    record_browser_callback (fresh_browser "local" 0) 1 0 .NEW
        scenario_record false true = (fresh_browser "local" 0, []) ∧
    record_browser_callback (fresh_browser "local" 0) 1 0 .NEW
        scenario_record true false =
      ({ fresh_browser "local" 0 with
          info := [{ interface := 1, protocol := 0,
                     srv_record := scenario_record,
                     host_name_resolver := false, address := none }],
          n_info := 1 }, []) := by
  refine ⟨rfl, by decide, ?_, ?_⟩
  · exact (C8_steady_state_alloc_failure (fresh_browser "local" 0) 1 0
      scenario_record rfl (by decide)).1 true
  · exact (C8_steady_state_alloc_failure (fresh_browser "local" 0) 1 0
      scenario_record rfl (by decide)).2

/-- C9: the record-watch query key is built from the name formed by
prefixing the stored domain with the label selected by the service kind
("_domain._udp" for Resolve, "_dns-update._udp" for Update), with IN class
and SRV type; the stored domain is the normalized supplied domain, and for
a null domain the normalized form of "local".  `valid`/`normalize` stand
for the domain routines living outside the given sources. -/
theorem C9_query_key (valid : String → Bool) (normalize : String → String)
    (domain : Option String) (ty : AvahiDNSServerType) (ap : Int)
    (rbOk : Bool) (hvalid : ∀ d, domain = some d → valid d = true) :
    CAction.start_record_browser
        { name := dns_server_label ty ++ "." ++
            normalize (domain.getD "local"),
          cls := AVAHI_DNS_CLASS_IN, rtype := AVAHI_DNS_TYPE_SRV } ∈
      (avahi_dns_server_browser_new valid normalize domain ty ap true
        rbOk).actions ∧
    (∀ bb,
        (avahi_dns_server_browser_new valid normalize domain ty ap true
          rbOk).browser = some bb →
        bb.domain_name = normalize (domain.getD "local")) ∧
    dns_server_label .RESOLVE = "_domain._udp" ∧
    dns_server_label .UPDATE = "_dns-update._udp" := by
  refine ⟨?_, ?_, rfl, rfl⟩
  · cases domain with
    | none =>
        cases rbOk <;>
          simp [avahi_dns_server_browser_new, dns_server_browser_new_body]
    | some d =>
        have hv := hvalid d rfl
        cases rbOk <;>
          simp [avahi_dns_server_browser_new, dns_server_browser_new_body,
            hv]
  · intro bb hbb
    cases domain with
    | none =>
        cases rbOk <;>
          simp [avahi_dns_server_browser_new, dns_server_browser_new_body,
            fresh_browser] at hbb
        simp [← hbb]
    | some d =>
        have hv := hvalid d rfl
        cases rbOk <;>
          simp [avahi_dns_server_browser_new, dns_server_browser_new_body,
            fresh_browser, hv] at hbb
        simp [← hbb]

theorem C9_query_key_witness :
    CAction.start_record_browser
        { name := dns_server_label .RESOLVE ++ "." ++ "local",
          cls := AVAHI_DNS_CLASS_IN, rtype := AVAHI_DNS_TYPE_SRV } ∈
      (avahi_dns_server_browser_new (fun _ => true) (fun s => s)
        (some "local") .RESOLVE 0 true true).actions := by
  exact (C9_query_key (fun _ => true) (fun s => s) (some "local") .RESOLVE
    0 true (fun d _ => rfl)).1

/-- C10: construction with a non-null domain failing validation fails with
the InvalidDomainName error code and returns null having performed nothing
else: no browser allocation, no registration, no record-watch
subscription. -/
theorem C10_invalid_domain (valid : String → Bool)
    (normalize : String → String) (d : String) (ty : AvahiDNSServerType)
    (ap : Int) (aOk rbOk : Bool) (h : valid d = false) :
    (avahi_dns_server_browser_new valid normalize (some d) ty ap aOk
      rbOk).browser = none ∧
    (avahi_dns_server_browser_new valid normalize (some d) ty ap aOk
      rbOk).actions = [.set_errno .INVALID_DOMAIN_NAME] ∧
    CAction.alloc_browser ∉
      (avahi_dns_server_browser_new valid normalize (some d) ty ap aOk
        rbOk).actions ∧
    CAction.register_browser ∉
      (avahi_dns_server_browser_new valid normalize (some d) ty ap aOk
        rbOk).actions ∧
    ∀ k, CAction.start_record_browser k ∉
      (avahi_dns_server_browser_new valid normalize (some d) ty ap aOk
        rbOk).actions := by
  simp [avahi_dns_server_browser_new, h]

/-- C4: a record-watch NEW whose key matches an existing entry is a
complete no-op (no entry, no resolution start, count unchanged, no public
event), and every dispatch step preserves the at-most-one-entry-per-key
invariant. -/
theorem C4_dedup (b : AvahiDNSServerBrowser) :
    (∀ interface protocol r aOk rOk,
        (get_server_info b interface protocol r).isSome →
        record_browser_callback b interface protocol .NEW r aOk rOk
          = (b, [])) ∧
    (∀ inp, dedup_inv b → dedup_inv (browser_step b inp).1) := by
  constructor
  · intro interface protocol r aOk rOk h
    simp [record_browser_callback, h]
  · intro inp hd
    cases inp with
    | record interface protocol ev r aOk rOk =>
        cases ev with
        | NEW =>
            by_cases h1 : (get_server_info b interface protocol r).isSome
            · simpa [browser_step, record_browser_callback, h1] using hd
            · by_cases h2 : b.n_info ≥ 10
              · simpa [browser_step, record_browser_callback, h1, h2]
                  using hd
              · cases aOk with
                | false =>
                    simpa [browser_step, record_browser_callback, h1, h2]
                      using hd
                | true =>
                    have hnone : get_server_info b interface protocol r
                        = none := by
                      cases hgs : get_server_info b interface protocol r
                      · rfl
                      · rw [hgs] at h1; simp at h1
                    have hstate :
                        (browser_step b (.record interface protocol .NEW r
                          true rOk)).1 =
                        { b with
                            info := { interface := interface,
                                      protocol := protocol,
                                      srv_record := r,
                                      host_name_resolver := rOk,
                                      address := none } :: b.info,
                            n_info := b.n_info + 1 } := by
                      simp [browser_step, record_browser_callback, h1, h2]
                    rw [dedup_inv, hstate]
                    refine List.pairwise_cons.mpr ⟨fun j hj => ?_, hd⟩
                    cases hsk : info_same_key
                        { interface := interface, protocol := protocol,
                          srv_record := r, host_name_resolver := rOk,
                          address := none } j with
                    | false => rfl
                    | true =>
                        have hm := (fresh_same_key_iff interface protocol r
                          rOk j).mp hsk
                        have := List.find?_eq_none.mp hnone j hj
                        simp_all
        | REMOVE =>
            cases hgs : get_server_info b interface protocol r with
            | none =>
                simpa [browser_step, record_browser_callback, hgs] using hd
            | some i =>
                have hstate :
                    (browser_step b (.record interface protocol .REMOVE r
                      aOk rOk)).1 = server_info_free b i := by
                  simp [browser_step, record_browser_callback, hgs]
                rw [hstate]
                exact hd.sublist (List.eraseP_sublist _)
    | resolve interface protocol r ev a =>
        cases hgs : get_server_info b interface protocol r with
        | none => simpa [browser_step, hgs] using hd
        | some i =>
            cases hb : i.host_name_resolver with
            | false => simpa [browser_step, hgs, hb] using hd
            | true =>
                have hstate :
                    (browser_step b (.resolve interface protocol r ev a)).1
                      = { b with
                          info := replaceFirst b.info i
                              (host_name_resolver_callback i ev a).1 } := by
                  simp [browser_step, hgs, hb]
                rw [dedup_inv, hstate]
                obtain ⟨hif, hpr, hr, _⟩ := hnrc_fields i ev a
                obtain ⟨hc1, hc2⟩ := info_same_key_congr hif hpr hr
                exact pairwise_replaceFirst hc1 hc2 hd

theorem C4_dedup_witness :
    ((get_server_info
        { domain_name := "local", aprotocol := 0,
          info := [{ interface := 1, protocol := 0,
                     srv_record := scenario_record,
                     host_name_resolver := true, address := none }],
          n_info := 1 } 1 0 scenario_record).isSome = true) ∧
    record_browser_callback
        { domain_name := "local", aprotocol := 0,
          info := [{ interface := 1, protocol := 0,
                     srv_record := scenario_record,
                     host_name_resolver := true, address := none }],
          n_info := 1 } 1 0 .NEW scenario_record true true =
      ({ domain_name := "local", aprotocol := 0,
         info := [{ interface := 1, protocol := 0,
                    srv_record := scenario_record,
                    host_name_resolver := true, address := none }],
         n_info := 1 }, []) ∧
    dedup_inv (browser_step
        { domain_name := "local", aprotocol := 0,
          info := [{ interface := 1, protocol := 0,
                     srv_record := scenario_record,
                     host_name_resolver := true, address := none }],
          n_info := 1 }
        (.record 1 0 .NEW scenario_record true true)).1 := by
  refine ⟨rfl, ?_, ?_⟩
  · exact (C4_dedup
      { domain_name := "local", aprotocol := 0,
        info := [{ interface := 1, protocol := 0,
                   srv_record := scenario_record,
                   host_name_resolver := true, address := none }],
        n_info := 1 }).1 1 0 scenario_record true true rfl
  · exact (C4_dedup
      { domain_name := "local", aprotocol := 0,
        info := [{ interface := 1, protocol := 0,
                   srv_record := scenario_record,
                   host_name_resolver := true, address := none }],
        n_info := 1 }).2 (.record 1 0 .NEW scenario_record true true)
      (by rw [dedup_inv]; exact List.pairwise_singleton _ _)

/-- C5: the live entry count equals the list length and never exceeds 10
(preserved by every dispatch step); a record-watch NEW arriving while the
count is at the bound is a complete no-op; and no step can make an absent
key present unless that very step is a record-watch NEW for that key — so
a later REMOVE freeing a slot does not retroactively admit a previously
ignored candidate. -/
theorem C5_bound (b : AvahiDNSServerBrowser) :
    (∀ inp, count_inv b → count_inv (browser_step b inp).1) ∧
    (∀ interface protocol r aOk rOk, b.n_info ≥ 10 →
        record_browser_callback b interface protocol .NEW r aOk rOk
          = (b, [])) ∧
    (∀ inp interface protocol r,
        get_server_info b interface protocol r = none →
        input_admits inp interface protocol r = false →
        get_server_info (browser_step b inp).1 interface protocol r
          = none) := by
  refine ⟨?_, ?_, ?_⟩
  · intro inp hc
    obtain ⟨hlen, hbound⟩ := hc
    cases inp with
    | record interface protocol ev r aOk rOk =>
        cases ev with
        | NEW =>
            by_cases h1 : (get_server_info b interface protocol r).isSome
            · simpa [browser_step, record_browser_callback, h1, count_inv]
                using ⟨hlen, hbound⟩
            · by_cases h2 : b.n_info ≥ 10
              · simpa [browser_step, record_browser_callback, h1, h2,
                  count_inv] using ⟨hlen, hbound⟩
              · cases aOk with
                | false =>
                    simpa [browser_step, record_browser_callback, h1, h2,
                      count_inv] using ⟨hlen, hbound⟩
                | true =>
                    have hstate :
                        (browser_step b (.record interface protocol .NEW r
                          true rOk)).1 =
                        { b with
                            info := { interface := interface,
                                      protocol := protocol,
                                      srv_record := r,
                                      host_name_resolver := rOk,
                                      address := none } :: b.info,
                            n_info := b.n_info + 1 } := by
                      simp [browser_step, record_browser_callback, h1, h2]
                    rw [hstate, count_inv]
                    constructor
                    · show b.n_info + 1 = _
                      simp [hlen]
                    · show b.n_info + 1 ≤ 10
                      omega
        | REMOVE =>
            cases hgs : get_server_info b interface protocol r with
            | none =>
                simpa [browser_step, record_browser_callback, hgs,
                  count_inv] using ⟨hlen, hbound⟩
            | some i =>
                have hstate :
                    (browser_step b (.record interface protocol .REMOVE r
                      aOk rOk)).1 = server_info_free b i := by
                  simp [browser_step, record_browser_callback, hgs]
                have himem : i ∈ b.info := List.mem_of_find?_eq_some hgs
                have hlen1 : (b.info.eraseP (fun j => j == i)).length =
                    b.info.length - 1 :=
                  List.length_eraseP_of_mem himem (by simp)
                have hpos : 1 ≤ b.info.length := List.length_pos.mpr
                  (List.ne_nil_of_mem himem)
                rw [hstate, count_inv, server_info_free]
                constructor
                · show b.n_info - 1 = _
                  rw [hlen1]
                  omega
                · show b.n_info - 1 ≤ 10
                  omega
    | resolve interface protocol r ev a =>
        cases hgs : get_server_info b interface protocol r with
        | none =>
            simpa [browser_step, hgs, count_inv] using ⟨hlen, hbound⟩
        | some i =>
            cases hb : i.host_name_resolver with
            | false =>
                simpa [browser_step, hgs, hb, count_inv]
                  using ⟨hlen, hbound⟩
            | true =>
                have hstate :
                    (browser_step b (.resolve interface protocol r ev a)).1
                      = { b with
                          info := replaceFirst b.info i
                              (host_name_resolver_callback i ev a).1 } := by
                  simp [browser_step, hgs, hb]
                rw [hstate, count_inv]
                constructor
                · show b.n_info = _
                  rw [length_replaceFirst]
                  exact hlen
                · exact hbound
  · intro interface protocol r aOk rOk h10
    by_cases h1 : (get_server_info b interface protocol r).isSome
    · simp [record_browser_callback, h1]
    · simp [record_browser_callback, h1, h10]
  · intro inp interface protocol r hnone hadm
    cases inp with
    | record interface2 protocol2 ev r2 aOk rOk =>
        cases ev with
        | NEW =>
            by_cases h1 : (get_server_info b interface2 protocol2 r2).isSome
            · simpa [browser_step, record_browser_callback, h1] using hnone
            · by_cases h2 : b.n_info ≥ 10
              · simpa [browser_step, record_browser_callback, h1, h2]
                  using hnone
              · cases aOk with
                | false =>
                    simpa [browser_step, record_browser_callback, h1, h2]
                      using hnone
                | true =>
                    have hstate :
                        (browser_step b (.record interface2 protocol2 .NEW
                          r2 true rOk)).1 =
                        { b with
                            info := { interface := interface2,
                                      protocol := protocol2,
                                      srv_record := r2,
                                      host_name_resolver := rOk,
                                      address := none } :: b.info,
                            n_info := b.n_info + 1 } := by
                      simp [browser_step, record_browser_callback, h1, h2]
                    rw [hstate, get_server_info]
                    have hfresh : info_matches interface protocol r
                        { interface := interface2, protocol := protocol2,
                          srv_record := r2, host_name_resolver := rOk,
                          address := none } = false := hadm
                    rw [List.find?_cons_of_neg _ (by simp [hfresh])]
                    exact hnone
        | REMOVE =>
            cases hgs : get_server_info b interface2 protocol2 r2 with
            | none =>
                simpa [browser_step, record_browser_callback, hgs]
                  using hnone
            | some i =>
                have hstate :
                    (browser_step b (.record interface2 protocol2 .REMOVE
                      r2 aOk rOk)).1 = server_info_free b i := by
                  simp [browser_step, record_browser_callback, hgs]
                rw [hstate, server_info_free, get_server_info]
                refine List.find?_eq_none.mpr fun x hx => ?_
                exact List.find?_eq_none.mp hnone x
                  ((List.eraseP_sublist _).subset hx)
    | resolve interface2 protocol2 r2 ev a =>
        cases hgs : get_server_info b interface2 protocol2 r2 with
        | none => simpa [browser_step, hgs] using hnone
        | some i =>
            cases hb : i.host_name_resolver with
            | false => simpa [browser_step, hgs, hb] using hnone
            | true =>
                have hstate :
                    (browser_step b (.resolve interface2 protocol2 r2 ev
                      a)).1 = { b with
                          info := replaceFirst b.info i
                              (host_name_resolver_callback i ev a).1 } := by
                  simp [browser_step, hgs, hb]
                rw [hstate, get_server_info]
                refine List.find?_eq_none.mpr fun x hx => ?_
                rcases mem_replaceFirst hx with hmem | ⟨heq, himem⟩
                · exact List.find?_eq_none.mp hnone x hmem
                · obtain ⟨hif, hpr, hr, _⟩ := hnrc_fields i ev a
                  rw [heq]
                  intro hmatch
                  rw [info_matches_congr hif hpr hr] at hmatch
                  exact List.find?_eq_none.mp hnone i himem hmatch

theorem C5_bound_witness :
    count_inv (fresh_browser "local" 0) ∧
    count_inv (browser_step (fresh_browser "local" 0)
      (.record 1 0 .NEW scenario_record true true)).1 ∧
    ({ domain_name := "local", aprotocol := 0, info := [],
       n_info := 10 } : AvahiDNSServerBrowser).n_info ≥ 10 ∧
    record_browser_callback
        { domain_name := "local", aprotocol := 0, info := [], n_info := 10 }
        1 0 .NEW scenario_record true true =
      ({ domain_name := "local", aprotocol := 0, info := [],
         n_info := 10 }, []) ∧
    get_server_info (browser_step (fresh_browser "local" 0)
        (.record 1 0 .REMOVE scenario_record true true)).1
      1 0 scenario_record = none := by
  refine ⟨⟨rfl, by decide⟩, ?_, by decide, ?_, ?_⟩
  · exact (C5_bound (fresh_browser "local" 0)).1
      (.record 1 0 .NEW scenario_record true true) ⟨rfl, by decide⟩
  · exact (C5_bound
      { domain_name := "local", aprotocol := 0, info := [],
        n_info := 10 }).2.1 1 0 scenario_record true true (by decide)
  · exact (C5_bound (fresh_browser "local" 0)).2.2
      (.record 1 0 .REMOVE scenario_record true true) 1 0 scenario_record
      rfl rfl

/-- C7: the resolution handler clears the entry's resolver reference after
its single terminal event in all cases (FOUND and FAILURE alike), and no
dispatch step ever re-populates the reference: under the dedup invariant,
if the entry for a key has a null resolver reference before a step and an
entry for that key still exists after it, its resolver reference is still
null. -/
theorem C7_one_shot (b : AvahiDNSServerBrowser) :
    (∀ i ev a,
        (host_name_resolver_callback i ev a).1.host_name_resolver
          = false) ∧
    (∀ inp interface protocol r i i',
        dedup_inv b →
        get_server_info b interface protocol r = some i →
        i.host_name_resolver = false →
        get_server_info (browser_step b inp).1 interface protocol r
          = some i' →
        i'.host_name_resolver = false) := by
  constructor
  · intro i ev a
    exact (hnrc_fields i ev a).2.2.2
  · intro inp interface protocol r i i' hd hi hifalse hi'
    have himem : i ∈ b.info := List.mem_of_find?_eq_some hi
    have himatch : info_matches interface protocol r i = true :=
      List.find?_some hi
    cases inp with
    | record interface2 protocol2 ev r2 aOk rOk =>
        cases ev with
        | NEW =>
            by_cases h1 : (get_server_info b interface2 protocol2
                r2).isSome
            · have hstate : (browser_step b (.record interface2 protocol2
                  .NEW r2 aOk rOk)).1 = b := by
                simp [browser_step, record_browser_callback, h1]
              rw [hstate, hi] at hi'
              cases hi'
              exact hifalse
            · by_cases h2 : b.n_info ≥ 10
              · have hstate : (browser_step b (.record interface2
                    protocol2 .NEW r2 aOk rOk)).1 = b := by
                  simp [browser_step, record_browser_callback, h1, h2]
                rw [hstate, hi] at hi'
                cases hi'
                exact hifalse
              · cases aOk with
                | false =>
                    have hstate : (browser_step b (.record interface2
                        protocol2 .NEW r2 false rOk)).1 = b := by
                      simp [browser_step, record_browser_callback, h1, h2]
                    rw [hstate, hi] at hi'
                    cases hi'
                    exact hifalse
                | true =>
                    have hnone2 : get_server_info b interface2 protocol2 r2
                        = none := by
                      cases hgs : get_server_info b interface2 protocol2 r2
                      · rfl
                      · rw [hgs] at h1; simp at h1
                    have hstate :
                        (browser_step b (.record interface2 protocol2 .NEW
                          r2 true rOk)).1 =
                        { b with
                            info := { interface := interface2,
                                      protocol := protocol2,
                                      srv_record := r2,
                                      host_name_resolver := rOk,
                                      address := none } :: b.info,
                            n_info := b.n_info + 1 } := by
                      simp [browser_step, record_browser_callback, h1, h2]
                    rw [hstate, get_server_info] at hi'
                    have hne : info_matches interface protocol r
                        { interface := interface2, protocol := protocol2,
                          srv_record := r2, host_name_resolver := rOk,
                          address := none } = false := by
                      cases hm : info_matches interface protocol r
                          { interface := interface2,
                            protocol := protocol2, srv_record := r2,
                            host_name_resolver := rOk,
                            address := none } with
                      | false => rfl
                      | true =>
                          have hsk := info_same_key_of_matches hm himatch
                          have hm2 := (fresh_same_key_iff interface2
                            protocol2 r2 rOk i).mp hsk
                          have := List.find?_eq_none.mp hnone2 i himem
                          simp_all
                    rw [List.find?_cons_of_neg _ (by simp [hne])] at hi'
                    rw [get_server_info] at hi
                    rw [hi] at hi'
                    cases hi'
                    exact hifalse
        | REMOVE =>
            cases hgs : get_server_info b interface2 protocol2 r2 with
            | none =>
                have hstate : (browser_step b (.record interface2 protocol2
                    .REMOVE r2 aOk rOk)).1 = b := by
                  simp [browser_step, record_browser_callback, hgs]
                rw [hstate, hi] at hi'
                cases hi'
                exact hifalse
            | some j =>
                have hstate : (browser_step b (.record interface2 protocol2
                    .REMOVE r2 aOk rOk)).1 = server_info_free b j := by
                  simp [browser_step, record_browser_callback, hgs]
                rw [hstate] at hi'
                have hi'mem : i' ∈ b.info :=
                  (List.eraseP_sublist _).subset
                    (List.mem_of_find?_eq_some hi')
                have hi'match : info_matches interface protocol r i' = true
                  := List.find?_some hi'
                have : i' = i := dedup_unique hd hi'mem himem hi'match
                  himatch
                rw [this]
                exact hifalse
    | resolve interface2 protocol2 r2 ev a =>
        cases hgs : get_server_info b interface2 protocol2 r2 with
        | none =>
            have hstate : (browser_step b (.resolve interface2 protocol2 r2
                ev a)).1 = b := by
              simp [browser_step, hgs]
            rw [hstate, hi] at hi'
            cases hi'
            exact hifalse
        | some j =>
            cases hjb : j.host_name_resolver with
            | false =>
                have hstate : (browser_step b (.resolve interface2
                    protocol2 r2 ev a)).1 = b := by
                  simp [browser_step, hgs, hjb]
                rw [hstate, hi] at hi'
                cases hi'
                exact hifalse
            | true =>
                have hstate :
                    (browser_step b (.resolve interface2 protocol2 r2 ev
                      a)).1 = { b with
                          info := replaceFirst b.info j
                              (host_name_resolver_callback j ev a).1 } := by
                  simp [browser_step, hgs, hjb]
                rw [hstate, get_server_info] at hi'
                rcases mem_replaceFirst (List.mem_of_find?_eq_some hi')
                  with hmem | ⟨heq, _⟩
                · have hi'match : info_matches interface protocol r i'
                      = true := List.find?_some hi'
                  have : i' = i := dedup_unique hd hmem himem hi'match
                    himatch
                  rw [this]
                  exact hifalse
                · rw [heq]
                  exact (hnrc_fields j ev a).2.2.2

theorem C7_one_shot_witness :
    (host_name_resolver_callback
        { interface := 1, protocol := 0, srv_record := scenario_record,
          host_name_resolver := true, address := none }
        .FAILURE 0).1.host_name_resolver = false ∧
    dedup_inv
      { domain_name := "local", aprotocol := 0,
        info := [{ interface := 1, protocol := 0,
                   srv_record := scenario_record,
                   host_name_resolver := false, address := none }],
        n_info := 1 } ∧
    get_server_info
        { domain_name := "local", aprotocol := 0,
          info := [{ interface := 1, protocol := 0,
                     srv_record := scenario_record,
                     host_name_resolver := false, address := none }],
          n_info := 1 } 1 0 scenario_record =
      some { interface := 1, protocol := 0, srv_record := scenario_record,
             host_name_resolver := false, address := none } ∧
    get_server_info (browser_step
        { domain_name := "local", aprotocol := 0,
          info := [{ interface := 1, protocol := 0,
                     srv_record := scenario_record,
                     host_name_resolver := false, address := none }],
          n_info := 1 }
        (.resolve 1 0 scenario_record .FOUND 7)).1 1 0 scenario_record =
      some { interface := 1, protocol := 0, srv_record := scenario_record,
             host_name_resolver := false, address := none } ∧
    ({ interface := 1, protocol := 0, srv_record := scenario_record,
       host_name_resolver := false, address := none }
      : AvahiDNSServerInfo).host_name_resolver = false := by
  refine ⟨?_, ?_, rfl, rfl, ?_⟩
  · exact (C7_one_shot (fresh_browser "local" 0)).1
      { interface := 1, protocol := 0, srv_record := scenario_record,
        host_name_resolver := true, address := none } .FAILURE 0
  · rw [dedup_inv]
    exact List.pairwise_singleton _ _
  · exact (C7_one_shot
      { domain_name := "local", aprotocol := 0,
        info := [{ interface := 1, protocol := 0,
                   srv_record := scenario_record,
                   host_name_resolver := false, address := none }],
        n_info := 1 }).2
      (.resolve 1 0 scenario_record .FOUND 7) 1 0 scenario_record
      { interface := 1, protocol := 0, srv_record := scenario_record,
        host_name_resolver := false, address := none }
      { interface := 1, protocol := 0, srv_record := scenario_record,
        host_name_resolver := false, address := none }
      (by rw [dedup_inv]; exact List.pairwise_singleton _ _) rfl rfl rfl

theorem C10_invalid_domain_witness :
    (fun _ : String => false) "bad..domain" = false ∧
    (avahi_dns_server_browser_new (fun _ => false) (fun s => s)
      (some "bad..domain") .RESOLVE 0 true true).browser = none ∧
    (avahi_dns_server_browser_new (fun _ => false) (fun s => s)
      (some "bad..domain") .RESOLVE 0 true true).actions =
      [.set_errno .INVALID_DOMAIN_NAME] := by
  refine ⟨rfl, ?_, ?_⟩
  · exact (C10_invalid_domain (fun _ => false) (fun s => s) "bad..domain"
      .RESOLVE 0 true true rfl).1
  · exact (C10_invalid_domain (fun _ => false) (fun s => s) "bad..domain"
      .RESOLVE 0 true true rfl).2.1

end Avahi
